import Mathlib

/-!
Verification of the INA Strategy Engine (MS 4, "The Brain").

This file embeds the repository's decision logic in Lean 4:

* `StrategyInput` mirrors the Pydantic model in `src/app/schemas.py`
  (fields `mam`, `asking_price`, `user_offer`, `session_id`, `history`);
* `StrategyCoreInput` is the attribute set that the body of
  `make_decision` in `src/app/strategy_core.py` actually reads — it
  additionally carries `user_sentiment` and `user_intent`, the two
  attributes the tests in `src/tests/test_strategy.py` construct;
* `make_decision` is a line-by-line translation of the rule cascade of
  `src/app/strategy_core.py` (policy v1.2.0): sentiment accept, standard
  accept, lowball reject, weighted-jump counter with its two clamps;
* `make_decision_service` composes the schema with the core the way the
  service does: the core's first attribute reads (`user_sentiment`,
  `user_intent` at `strategy_core.py` line 27) go through the schema's
  declared attribute table, so a read of an undeclared attribute
  surfaces as a Python `AttributeError`.

Prices are modelled as rationals; `math.ceil` becomes `Int.ceil`.
-/

/-- A conversation turn: the engine treats `history` entries as string-keyed
dictionaries; the keys used anywhere in the repository are `role`, `message`,
`offer` and `counter_price` (see `src/tests/test_strategy.py` and
`src/test_full_negotiation.py`). -/
structure Turn where
  role : Option String := none
  message : Option String := none
  offer : Option ℚ := none
  counter_price : Option ℚ := none
deriving DecidableEq

/-- Model of `src/app/schemas.py` lines 11–57: the `StrategyInput` Pydantic model.
Its declared fields are exactly `mam`, `asking_price`, `user_offer`,
`session_id` and `history`. -/
structure StrategyInput where
  mam : ℚ
  asking_price : ℚ
  user_offer : ℚ
  session_id : String
  history : List Turn := []
deriving DecidableEq

/-- The attribute set read by the body of `make_decision` in
`src/app/strategy_core.py`: the schema's fields plus `user_sentiment` and
`user_intent`, which the function reads and the tests supply. -/
structure StrategyCoreInput where
  mam : ℚ
  asking_price : ℚ
  user_offer : ℚ
  user_sentiment : String
  user_intent : String
  session_id : String
  history : List Turn := []
deriving DecidableEq

/-- A value stored in the `decision_metadata` dictionary: the code stores
strings and numbers. -/
inductive MetaVal where
  | s (v : String)
  | q (v : ℚ)
deriving DecidableEq

/-- Model of `src/app/schemas.py` lines 63–110: the `StrategyOutput` model. -/
structure StrategyOutput where
  action : String
  response_key : String
  counter_price : Option ℚ := none
  policy_type : String := "rule-based"
  policy_version : Option String := some "1.0.0"
  decision_metadata : Option (List (String × MetaVal)) := none
deriving DecidableEq

/-- Source: `src/app/strategy_core.py` line 13. -/
def POLICY_VERSION : String := "1.2.0"

/-- Source: `src/app/strategy_core.py` line 14: 70% of MAM. -/
def LOWBALL_THRESHOLD_PERCENT : ℚ := 70 / 100

/-- Source: `src/app/strategy_core.py` line 15: 95% of MAM. -/
def SENTIMENT_ACCEPT_THRESHOLD_PERCENT : ℚ := 95 / 100

/-- Source: `src/app/strategy_core.py` line 18: weight of the counter-offer jump. -/
def COUNTER_JUMP_WEIGHT : ℚ := 75 / 100

/-- Translation of `src/app/strategy_core.py` lines 20–146: the v1.2 rule cascade, rendered
clause by clause.  Rule 1: sentiment-based accept; Rule 2: standard accept;
Rule 3: lowball reject; Rule 4: weighted-jump counter with the MAM clamp-up
and the asking-price clamp-down, in that order. -/
def make_decision (input_data : StrategyCoreInput) : StrategyOutput :=
  let sentiment_accept_threshold :=
    input_data.mam * SENTIMENT_ACCEPT_THRESHOLD_PERCENT
  if input_data.user_sentiment = "negative" ∧
      input_data.user_offer ≥ sentiment_accept_threshold then
    { action := "ACCEPT"
      response_key := "ACCEPT_SENTIMENT_CLOSE"
      counter_price := some input_data.user_offer
      policy_type := "rule-based"
      policy_version := some POLICY_VERSION
      decision_metadata := some
        [("rule", .s "sentiment_accept_on_negative"),
         ("mam", .q input_data.mam),
         ("user_offer", .q input_data.user_offer),
         ("sentiment", .s input_data.user_sentiment),
         ("threshold_percent", .q SENTIMENT_ACCEPT_THRESHOLD_PERCENT),
         ("threshold_value", .q sentiment_accept_threshold)] }
  else if input_data.user_offer ≥ input_data.mam then
    { action := "ACCEPT"
      response_key := "ACCEPT_FINAL"
      counter_price := some input_data.user_offer
      policy_type := "rule-based"
      policy_version := some POLICY_VERSION
      decision_metadata := some
        [("rule", .s "user_offer_gte_mam"),
         ("mam", .q input_data.mam),
         ("user_offer", .q input_data.user_offer)] }
  else
    let lowball_threshold := input_data.mam * LOWBALL_THRESHOLD_PERCENT
    if input_data.user_offer < lowball_threshold then
      { action := "REJECT"
        response_key := "REJECT_LOWBALL"
        counter_price := none
        policy_type := "rule-based"
        policy_version := some POLICY_VERSION
        decision_metadata := some
          [("rule", .s "user_offer_lt_lowball_threshold"),
           ("mam", .q input_data.mam),
           ("user_offer", .q input_data.user_offer),
           ("threshold_percent", .q LOWBALL_THRESHOLD_PERCENT),
           ("threshold_value", .q lowball_threshold)] }
    else
      let gap_to_mam := input_data.mam - input_data.user_offer
      let jump_amount := gap_to_mam * COUNTER_JUMP_WEIGHT
      let counter_offer : ℚ :=
        ((⌈input_data.user_offer + jump_amount⌉ : ℤ) : ℚ)
      let counter_offer :=
        if counter_offer < input_data.mam then input_data.mam
        else counter_offer
      let counter_offer :=
        if counter_offer > input_data.asking_price then input_data.asking_price
        else counter_offer
      { action := "COUNTER"
        response_key := "STANDARD_COUNTER"
        counter_price := some counter_offer
        policy_type := "rule-based"
        policy_version := some POLICY_VERSION
        decision_metadata := some
          [("rule", .s "weighted_jump_counter"),
           ("mam", .q input_data.mam),
           ("user_offer", .q input_data.user_offer),
           ("jump_weight", .q COUNTER_JUMP_WEIGHT),
           ("calculated_counter", .q counter_offer)] }

/-- The attribute names that appear in attribute reads on the input object
anywhere in `src/app/strategy_core.py`. -/
inductive PyAttr where
  | mam | asking_price | user_offer | session_id | history
  | user_sentiment | user_intent
deriving DecidableEq

/-- A Python attribute value as far as this service is concerned. -/
inductive PyVal where
  | num (q : ℚ)
  | str (s : String)
  | turns (h : List Turn)
deriving DecidableEq

/-- Python-style attribute access on a `StrategyInput` instance: Pydantic
exposes exactly the declared fields of `src/app/schemas.py` lines 11–57
as attributes; any other attribute read raises `AttributeError`, which we
model by `none`. -/
def StrategyInput.attr (i : StrategyInput) : PyAttr → Option PyVal
  | .mam => some (.num i.mam)
  | .asking_price => some (.num i.asking_price)
  | .user_offer => some (.num i.user_offer)
  | .session_id => some (.str i.session_id)
  | .history => some (.turns i.history)
  | .user_sentiment => none
  | .user_intent => none

/-- A Python exception surfaced by the service. -/
inductive PyErr where
  | attributeError (name : String)
  | typeError (name : String)
deriving DecidableEq

/-- The service-level behaviour of `make_decision` when called on a
`StrategyInput` as `src/app/schemas.py` declares it: the function's first
statements (`strategy_core.py` line 27 and the Rule 1 guard at lines 34–35)
read `input_data.user_sentiment` and `input_data.user_intent` through
attribute access, so an undeclared attribute raises before any rule fires. -/
def make_decision_service (i : StrategyInput) : Except PyErr StrategyOutput :=
  match i.attr .user_sentiment with
  | none => .error (.attributeError "user_sentiment")
  | some sv =>
    match i.attr .user_intent with
    | none => .error (.attributeError "user_intent")
    | some iv =>
      match sv, iv with
      | .str s, .str it =>
        .ok (make_decision
          { mam := i.mam
            asking_price := i.asking_price
            user_offer := i.user_offer
            user_sentiment := s
            user_intent := it
            session_id := i.session_id
            history := i.history })
      | _, _ => .error (.typeError "user_sentiment")

/-- ASCII lowering of a string (what Python's `str.lower` does on the
role strings that occur in this repository). -/
def lowerStr (s : String) : String := ⟨s.data.map Char.toLower⟩

/-- Whether a history role string denotes the engine side.
Modelled from the spec: §3 Turn — role matching is case-insensitive and
"assistant"/"bot" both denote the engine side. -/
def isEngineRole (r : String) : Bool :=
  let l := lowerStr r
  l == "engine" || l == "assistant" || l == "bot"

/-- Modelled from the spec: the History Scanner (§4.1), which is absent from
`src/app` (only its tests exist): scan `history` newest-to-oldest and return
the price of the first engine-role turn carrying one, defaulting to
`listed_price`.  Engine turns carry their price in the `counter_price` key,
as throughout `src/tests/test_strategy.py`. -/
def lastEnginePrice (history : List Turn) (listed_price : ℚ) : ℚ :=
  match history.reverse.find? (fun t =>
      match t.role, t.counter_price with
      | some r, some _ => isEngineRole r
      | _, _ => false) with
  | some t => t.counter_price.getD listed_price
  | none => listed_price

/-! ## Claim theorems -/

/-- C1.  Totality: the claim says `make_decision` returns a `StrategyOutput`
for every well-formed `StrategyInput` and never raises.  In fact the body of
`make_decision` reads `input_data.user_sentiment`, an attribute the
`StrategyInput` model of `src/app/schemas.py` does not declare, so every
invocation raises `AttributeError` before any rule fires. -/
theorem make_decision_service_always_raises (i : StrategyInput) :
    make_decision_service i =
      Except.error (PyErr.attributeError "user_sentiment") := rfl

/-- C2.  Floor-accept guarantee: whenever `user_offer ≥ mam`, the decision is
ACCEPT with `counter_price = user_offer`, whatever the sentiment, intent,
session or history. -/
theorem floor_accept (i : StrategyCoreInput) (h : i.mam ≤ i.user_offer) :
    (make_decision i).action = "ACCEPT" ∧
      (make_decision i).counter_price = some i.user_offer := by
  simp only [make_decision]
  split_ifs with h1 <;> exact ⟨rfl, rfl⟩

/-- C2 witness: floor 42000, offer 43000 is accepted at the offer. -/
theorem floor_accept_witness :
    (make_decision
      { mam := 42000, asking_price := 50000, user_offer := 43000,
        user_sentiment := "negative", user_intent := "MAKE_OFFER",
        session_id := "sess_w2",
        history := [{ role := some "user", offer := some 30000 }] }).action
      = "ACCEPT" ∧
    (make_decision
      { mam := 42000, asking_price := 50000, user_offer := 43000,
        user_sentiment := "negative", user_intent := "MAKE_OFFER",
        session_id := "sess_w2",
        history := [{ role := some "user", offer := some 30000 }] }).counter_price
      = some 43000 :=
  floor_accept _ (by norm_num)

/-- Concrete input refuting the counter-floor invariant: the floor is above
the asking price, so the asking-price clamp pushes the counter below MAM. -/
def counterFloorCE : StrategyCoreInput :=
  { mam := 100, asking_price := 50, user_offer := 80,
    user_sentiment := "neutral", user_intent := "MAKE_OFFER",
    session_id := "sess_c3", history := [] }

/-- C3 counterexample: on `counterFloorCE` the engine counters at 50,
strictly below the floor price 100, because the asking-price clamp-down at
`strategy_core.py` lines 125–128 runs after the MAM clamp-up. -/
theorem counter_below_floor_counterexample :
    (make_decision counterFloorCE).action = "COUNTER" ∧
      (make_decision counterFloorCE).counter_price = some 50 ∧
      (50 : ℚ) < counterFloorCE.mam := by
  norm_num [make_decision, counterFloorCE, SENTIMENT_ACCEPT_THRESHOLD_PERCENT,
    LOWBALL_THRESHOLD_PERCENT, COUNTER_JUMP_WEIGHT]

/-- C3 amended: on inputs with `mam ≤ asking_price` (the spec requires
`listed_price ≥ floor_price`), every counter decision is at or above the
floor price. -/
theorem counter_floor_amended (i : StrategyCoreInput)
    (hla : i.mam ≤ i.asking_price)
    (hact : (make_decision i).action = "COUNTER") (c : ℚ)
    (hc : (make_decision i).counter_price = some c) : i.mam ≤ c := by
  simp only [make_decision] at hact hc
  split_ifs at hact hc with h1 h2 h3 h4 h5 h6
  · exact absurd hact (by simp)
  · exact absurd hact (by simp)
  · injection hc with hc; linarith
  · injection hc with hc; linarith
  · injection hc with hc; linarith
  · injection hc with hc; linarith

/-- C3 amended witness: floor 42000, asking 50000, offer 40000 counters at
the floor itself. -/
theorem counter_floor_amended_witness :
    ({ mam := 42000, asking_price := 50000, user_offer := 40000,
       user_sentiment := "neutral", user_intent := "MAKE_OFFER",
       session_id := "sess_c3w", history := [] } : StrategyCoreInput).mam
      ≤ 42000 :=
  counter_floor_amended _ (by norm_num)
    (by norm_num [make_decision, SENTIMENT_ACCEPT_THRESHOLD_PERCENT,
        LOWBALL_THRESHOLD_PERCENT, COUNTER_JUMP_WEIGHT] <;> decide)
    42000
    (by norm_num [make_decision, SENTIMENT_ACCEPT_THRESHOLD_PERCENT,
        LOWBALL_THRESHOLD_PERCENT, COUNTER_JUMP_WEIGHT] <;> decide)

/-- Concrete input refuting the ratchet invariant: the engine previously
quoted 36000 (an engine-role turn in history), but the v1.2 code never reads
`history`, so it counters at 40000, above its own last quote. -/
def ratchetCE : StrategyCoreInput :=
  { mam := 40000, asking_price := 50000, user_offer := 35000,
    user_sentiment := "neutral", user_intent := "MAKE_OFFER",
    session_id := "sess_c4",
    history := [{ role := some "assistant",
                  message := some "I counter 36000",
                  counter_price := some 36000 }] }

/-- C4 counterexample: on `ratchetCE` the last engine price derived from
history is 36000, yet the counter decision returns 40000 > 36000. -/
theorem ratchet_counterexample :
    (make_decision ratchetCE).action = "COUNTER" ∧
      (make_decision ratchetCE).counter_price = some 40000 ∧
      lastEnginePrice ratchetCE.history ratchetCE.asking_price = 36000 ∧
      ¬ (40000 : ℚ) ≤ 36000 := by
  refine ⟨?_, ?_, by decide, by norm_num⟩ <;>
    (norm_num [make_decision, ratchetCE, SENTIMENT_ACCEPT_THRESHOLD_PERCENT,
      LOWBALL_THRESHOLD_PERCENT, COUNTER_JUMP_WEIGHT] <;> decide)

/-- C4 amended: every counter decision is at or below `asking_price`
(the listed price), regardless of history — the only upper clamp the code
applies is the asking-price clamp at `strategy_core.py` lines 125–128. -/
theorem counter_le_asking_amended (i : StrategyCoreInput)
    (hact : (make_decision i).action = "COUNTER") (c : ℚ)
    (hc : (make_decision i).counter_price = some c) : c ≤ i.asking_price := by
  simp only [make_decision] at hact hc
  split_ifs at hact hc with h1 h2 h3 h4 h5 h6
  · exact absurd hact (by simp)
  · exact absurd hact (by simp)
  · injection hc with hc; linarith
  · injection hc with hc; linarith
  · injection hc with hc; linarith
  · injection hc with hc; linarith

/-- C4 amended witness: floor 40000, asking 50000, offer 30000 counters at
40000, which is at most the asking price. -/
theorem counter_le_asking_amended_witness :
    (40000 : ℚ) ≤
      ({ mam := 40000, asking_price := 50000, user_offer := 30000,
         user_sentiment := "neutral", user_intent := "MAKE_OFFER",
         session_id := "sess_c4w", history := [] } : StrategyCoreInput).asking_price :=
  counter_le_asking_amended _
    (by norm_num [make_decision, SENTIMENT_ACCEPT_THRESHOLD_PERCENT,
        LOWBALL_THRESHOLD_PERCENT, COUNTER_JUMP_WEIGHT] <;> decide)
    40000
    (by norm_num [make_decision, SENTIMENT_ACCEPT_THRESHOLD_PERCENT,
        LOWBALL_THRESHOLD_PERCENT, COUNTER_JUMP_WEIGHT] <;> decide)

/-- The history-aware counter scenario of the spec (floor 40000, offer 38000,
prior engine turn at 48000, asking price 50000), mirroring
`test_standard_counter_history_aware` in `src/tests/test_strategy.py`. -/
def historyCounterCE : StrategyCoreInput :=
  { mam := 40000, asking_price := 50000, user_offer := 38000,
    user_sentiment := "neutral", user_intent := "MAKE_OFFER",
    session_id := "sess_c5",
    history := [{ role := some "user", message := some "30k" },
                { role := some "assistant", message := some "48k",
                  counter_price := some 48000 }] }

/-- C5 counterexample: on the claimed scenario the code returns 40000, not
43000 — it never reads the 48000 anchor from history, and applies the fixed
weight 0.75 toward MAM rather than a 0.5 concession from the anchor. -/
theorem history_counter_counterexample :
    (make_decision historyCounterCE).action = "COUNTER" ∧
      (make_decision historyCounterCE).counter_price = some 40000 ∧
      (make_decision historyCounterCE).counter_price ≠ some 43000 := by
  norm_num [make_decision, historyCounterCE, SENTIMENT_ACCEPT_THRESHOLD_PERCENT,
    LOWBALL_THRESHOLD_PERCENT, COUNTER_JUMP_WEIGHT] <;> decide

/-- C5 amended: whenever the counter rule is reached (relief accept, standard
accept and lowball reject all fail), the counter price equals
`ceil(user_offer + 0.75 * (mam - user_offer))` clamped up to `mam` and then
down to `asking_price`; history and offer counts play no part. -/
theorem weighted_jump_counter_amended (i : StrategyCoreInput)
    (h1 : ¬ (i.user_sentiment = "negative" ∧
      i.mam * SENTIMENT_ACCEPT_THRESHOLD_PERCENT ≤ i.user_offer))
    (h2 : i.user_offer < i.mam)
    (h3 : i.mam * LOWBALL_THRESHOLD_PERCENT ≤ i.user_offer) :
    (make_decision i).action = "COUNTER" ∧
      (make_decision i).counter_price =
        some (min i.asking_price (max i.mam
          ((⌈i.user_offer + (i.mam - i.user_offer) * COUNTER_JUMP_WEIGHT⌉ : ℤ) : ℚ))) := by
  simp only [make_decision]
  split_ifs with g1 g2 g3 g4 g5 g6
  · exact absurd g1 h1
  · exact absurd g2 (not_le.mpr h2)
  · exact absurd g3 (not_lt.mpr h3)
  · refine ⟨rfl, ?_⟩
    rw [max_eq_left g4.le, min_eq_left g5.le]
  · refine ⟨rfl, ?_⟩
    rw [max_eq_left g4.le, min_eq_right (not_lt.mp g5)]
  · refine ⟨rfl, ?_⟩
    rw [max_eq_right (not_lt.mp g4), min_eq_left g6.le]
  · refine ⟨rfl, ?_⟩
    rw [max_eq_right (not_lt.mp g4), min_eq_right (not_lt.mp g6)]

/-- C5 amended witness: on the scenario input the counter is the clamped
weighted jump, i.e. 40000. -/
theorem weighted_jump_counter_amended_witness :
    (make_decision historyCounterCE).action = "COUNTER" ∧
      (make_decision historyCounterCE).counter_price =
        some (min historyCounterCE.asking_price (max historyCounterCE.mam
          ((⌈historyCounterCE.user_offer +
              (historyCounterCE.mam - historyCounterCE.user_offer) *
                COUNTER_JUMP_WEIGHT⌉ : ℤ) : ℚ))) :=
  weighted_jump_counter_amended historyCounterCE (by decide)
    (by norm_num [historyCounterCE])
    (by norm_num [historyCounterCE, LOWBALL_THRESHOLD_PERCENT])

/-- Whether a history role string denotes the counterparty side.
Modelled from the spec: §3 Turn — the counterparty role, spelled "user"
throughout the repository's histories. -/
def isCounterpartyRole (r : String) : Bool :=
  let l := lowerStr r
  l == "counterparty" || l == "user"

/-- Modelled from the spec: §3 — the number of counterparty turns in history
plus one for the offer being evaluated in the current call. -/
def counterpartyOfferCount (history : List Turn) : Nat :=
  (history.filter (fun t => (t.role.map isCounterpartyRole).getD false)).length + 1

/-- The fatigue scenario of `test_final_offer_logic_trigger` in
`src/tests/test_strategy.py`: four prior counterparty turns plus the current
offer. -/
def fatigueInput : StrategyCoreInput :=
  { mam := 45000, asking_price := 50000, user_offer := 44000,
    user_sentiment := "neutral", user_intent := "MAKE_OFFER",
    session_id := "sess_c6",
    history := [{ role := some "user", message := some "30k" },
                { role := some "assistant", message := some "49k",
                  counter_price := some 49000 },
                { role := some "user", message := some "35k" },
                { role := some "assistant", message := some "48.5k",
                  counter_price := some 48500 },
                { role := some "user", message := some "40k" },
                { role := some "assistant", message := some "48k",
                  counter_price := some 48000 },
                { role := some "user", message := some "42k" },
                { role := some "assistant", message := some "47.5k",
                  counter_price := some 47500 }] }

/-- C6: the fatigue input carries five counterparty offers (well past
`OFFER_THRESHOLD = 3`), yet the code still answers with the standard counter
key — it has no final-offer logic at all, contradicting
`test_final_offer_logic_trigger`, which expects `COUNTER_FINAL_OFFER`. -/
theorem fatigue_threshold_code_bug :
    counterpartyOfferCount fatigueInput.history = 5 ∧
      (make_decision fatigueInput).action = "COUNTER" ∧
      (make_decision fatigueInput).response_key = "STANDARD_COUNTER" ∧
      (make_decision fatigueInput).response_key ≠ "COUNTER_FINAL_OFFER" := by
  refine ⟨by decide, ?_, ?_, ?_⟩ <;>
    (norm_num [make_decision, fatigueInput, SENTIMENT_ACCEPT_THRESHOLD_PERCENT,
      LOWBALL_THRESHOLD_PERCENT, COUNTER_JUMP_WEIGHT] <;> decide)

/-- C7.  Lowball rejection: with a positive floor (the spec requires
`floor_price` positive), an offer below 70% of the floor on which the
sentiment-relief rule does not fire is rejected with no counter price. -/
theorem lowball_reject (i : StrategyCoreInput) (hm : 0 < i.mam)
    (hrelief : ¬ (i.user_sentiment = "negative" ∧
      i.mam * SENTIMENT_ACCEPT_THRESHOLD_PERCENT ≤ i.user_offer))
    (hlow : i.user_offer < i.mam * LOWBALL_THRESHOLD_PERCENT) :
    (make_decision i).action = "REJECT" ∧
      (make_decision i).counter_price = none := by
  simp only [make_decision]
  split_ifs with g1 g2
  · exact absurd g1 hrelief
  · exfalso
    simp only [LOWBALL_THRESHOLD_PERCENT] at hlow
    linarith
  · exact ⟨rfl, rfl⟩

/-- C7 witness: floor 42000, offer 25000 (below the 29400 threshold) is
rejected. -/
theorem lowball_reject_witness :
    (make_decision
      { mam := 42000, asking_price := 50000, user_offer := 25000,
        user_sentiment := "negative", user_intent := "MAKE_OFFER",
        session_id := "sess_c7", history := [] }).action = "REJECT" ∧
    (make_decision
      { mam := 42000, asking_price := 50000, user_offer := 25000,
        user_sentiment := "negative", user_intent := "MAKE_OFFER",
        session_id := "sess_c7", history := [] }).counter_price = none :=
  lowball_reject _ (by norm_num)
    (by norm_num [SENTIMENT_ACCEPT_THRESHOLD_PERCENT])
    (by norm_num [LOWBALL_THRESHOLD_PERCENT])

/-- C8.  Sentiment relief: a negative-sentiment offer at or above 95% of the
floor but below the floor is accepted at the offer, under the
sentiment-specific response key, which differs from the standard accept
key. -/
theorem sentiment_relief_accept (i : StrategyCoreInput)
    (hs : i.user_sentiment = "negative")
    (hth : i.mam * SENTIMENT_ACCEPT_THRESHOLD_PERCENT ≤ i.user_offer)
    (hlt : i.user_offer < i.mam) :
    (make_decision i).action = "ACCEPT" ∧
      (make_decision i).counter_price = some i.user_offer ∧
      (make_decision i).response_key = "ACCEPT_SENTIMENT_CLOSE" ∧
      (make_decision i).response_key ≠ "ACCEPT_FINAL" := by
  simp only [make_decision]
  split_ifs with g1 g2 g3 g4 g5 g6
  · exact ⟨rfl, rfl, rfl, by simp⟩
  all_goals exact absurd ⟨hs, hth⟩ g1

/-- C8 witness: floor 42000, offer 40000 (≥ 39900), sentiment negative. -/
theorem sentiment_relief_accept_witness :
    (make_decision
      { mam := 42000, asking_price := 50000, user_offer := 40000,
        user_sentiment := "negative", user_intent := "MAKE_OFFER",
        session_id := "sess_c8", history := [] }).action = "ACCEPT" ∧
    (make_decision
      { mam := 42000, asking_price := 50000, user_offer := 40000,
        user_sentiment := "negative", user_intent := "MAKE_OFFER",
        session_id := "sess_c8", history := [] }).counter_price = some 40000 ∧
    (make_decision
      { mam := 42000, asking_price := 50000, user_offer := 40000,
        user_sentiment := "negative", user_intent := "MAKE_OFFER",
        session_id := "sess_c8", history := [] }).response_key
      = "ACCEPT_SENTIMENT_CLOSE" ∧
    (make_decision
      { mam := 42000, asking_price := 50000, user_offer := 40000,
        user_sentiment := "negative", user_intent := "MAKE_OFFER",
        session_id := "sess_c8", history := [] }).response_key
      ≠ "ACCEPT_FINAL" :=
  sentiment_relief_accept _ rfl
    (by norm_num [SENTIMENT_ACCEPT_THRESHOLD_PERCENT]) (by norm_num)

/-- C9.  Implicit floor disclosure: when the floor is a positive whole
number, the asking price is at least the floor, and the counter rule is
reached, the counter price is exactly `mam` — the weighted jump lands at or
below the integral floor, the MAM clamp lifts it to `mam`, and the
asking-price clamp leaves it there. -/
theorem counter_discloses_floor (i : StrategyCoreInput) (n : ℤ) (hn : 0 < n)
    (hmam : i.mam = (n : ℚ)) (hask : i.mam ≤ i.asking_price)
    (hrelief : ¬ (i.user_sentiment = "negative" ∧
      i.mam * SENTIMENT_ACCEPT_THRESHOLD_PERCENT ≤ i.user_offer))
    (hlt : i.user_offer < i.mam)
    (hlow : i.mam * LOWBALL_THRESHOLD_PERCENT ≤ i.user_offer) :
    (make_decision i).action = "COUNTER" ∧
      (make_decision i).counter_price = some i.mam := by
  have hceil :
      ((⌈i.user_offer + (i.mam - i.user_offer) * COUNTER_JUMP_WEIGHT⌉ : ℤ) : ℚ)
        ≤ i.mam := by
    rw [hmam]
    have harg : i.user_offer + ((n : ℚ) - i.user_offer) * COUNTER_JUMP_WEIGHT
        ≤ (n : ℚ) := by
      simp only [COUNTER_JUMP_WEIGHT]
      rw [hmam] at hlt
      linarith
    exact_mod_cast Int.ceil_le.mpr harg
  simp only [make_decision]
  split_ifs with g1 g2 g3 g4 g5 g6
  · exact absurd g1 hrelief
  · exact absurd g2 (not_le.mpr hlt)
  · exact absurd g3 (not_lt.mpr hlow)
  · exact absurd g5 (not_lt.mpr hask)
  · exact ⟨rfl, rfl⟩
  · exfalso; linarith
  · exact ⟨rfl, congrArg some (le_antisymm hceil (not_lt.mp g4))⟩

/-- C9 witness: floor 40000 (a positive integer), asking 50000, offer 38000,
neutral sentiment — the counter quotes the secret floor exactly. -/
theorem counter_discloses_floor_witness :
    (make_decision
      { mam := 40000, asking_price := 50000, user_offer := 38000,
        user_sentiment := "neutral", user_intent := "MAKE_OFFER",
        session_id := "sess_c9", history := [] }).action = "COUNTER" ∧
    (make_decision
      { mam := 40000, asking_price := 50000, user_offer := 38000,
        user_sentiment := "neutral", user_intent := "MAKE_OFFER",
        session_id := "sess_c9", history := [] }).counter_price
      = some 40000 :=
  counter_discloses_floor _ 40000 (by norm_num) (by norm_num) (by norm_num)
    (by decide) (by norm_num) (by norm_num [LOWBALL_THRESHOLD_PERCENT])

/-- C10.  History independence: two inputs that agree on `mam`,
`asking_price`, `user_offer` and `user_sentiment` yield identical decisions
(all fields, metadata included), whatever their `history`, `session_id` or
`user_intent` — the v1.2 cascade reads nothing else. -/
theorem decision_history_independent (i j : StrategyCoreInput)
    (hm : i.mam = j.mam) (ha : i.asking_price = j.asking_price)
    (hu : i.user_offer = j.user_offer)
    (hs : i.user_sentiment = j.user_sentiment) :
    make_decision i = make_decision j := by
  obtain ⟨m1, a1, u1, s1, t1, d1, y1⟩ := i
  obtain ⟨m2, a2, u2, s2, t2, d2, y2⟩ := j
  dsimp only at hm ha hu hs
  subst hm ha hu hs
  rfl

/-- C10 witness: two inputs sharing the financial fields and sentiment but
with different histories, session ids and intents decide identically. -/
theorem decision_history_independent_witness :
    make_decision
      { mam := 40000, asking_price := 50000, user_offer := 38000,
        user_sentiment := "neutral", user_intent := "MAKE_OFFER",
        session_id := "sess_a",
        history := [{ role := some "assistant", message := some "48k",
                      counter_price := some 48000 }] } =
    make_decision
      { mam := 40000, asking_price := 50000, user_offer := 38000,
        user_sentiment := "neutral", user_intent := "ASK_QUESTION",
        session_id := "sess_b", history := [] } :=
  decision_history_independent _ _ rfl rfl rfl rfl
